import Mathlib

/-!
Shallow embedding of the helpihub email-processing core
(`src/email_processor.py`): message parsing helpers, thread resolution,
ticket allocation, item storage, confirmation dispatch and the batch
processing loop, together with theorems about the behaviour of these
operations.

The relational store is modelled as explicit lists of rows; SQL queries
without an ORDER BY are modelled as returning the first matching row in
insertion order.  The psycopg2 transaction semantics are modelled
explicitly: the connection holds at most one open transaction, `BEGIN`
inside an already-open transaction is a warning-level no-op, `COMMIT`
publishes the working snapshot and `ROLLBACK` discards it.  The Postgres
sequence (`nextval`) and uuid generation are non-transactional counters:
a rollback does not undo them.  `uuid.uuid4()` values are modelled as a
deterministic counter-indexed string; `datetime.now()` is modelled as a
natural-number timestamp supplied per processing call.
-/

namespace EmailProc

/-- Configuration constants (the config source is an external collaborator;
the core only reads these fields). -/
def smtp_host : String := "smtp.example.com"

def sender_name : String := "Helpihub Support"

def sender_address : String := "support@example.com"

/-- Deterministic model of `uuid.uuid4()`: the n-th generated identifier. -/
def uuidStr (n : Nat) : String := "uuid-" ++ toString n

/-- One row of the `items` table (columns used by the core). -/
structure Item where
  id : String
  ticket_id : String
  itemType : String
  message_id : String
  from_address : String
  to_address : String
  subject : String
  body : String
  in_reply_to : String
  references_list : Option (List String)
  created_at : Nat
  source : String
deriving DecidableEq, Repr

/-- One row of the `tickets` table. -/
structure Ticket where
  id : String
  ticket_number : String
  subject : String
  queue_id : String
  status_name : String
  assigned_supporter_id : Option String
  created_at : Nat
  updated_at : Nat
deriving DecidableEq, Repr

/-- One row of the `queues` table (the `prefix` column is called `pfx`
here because `prefix` is reserved in Lean). -/
structure Queue where
  id : String
  name : String
  pfx : String
  description : String
deriving DecidableEq, Repr

/-- One row of the `supporters` table. -/
structure Supporter where
  id : String
  email : String
deriving DecidableEq, Repr

/-- One row of the `ticket_assignments` table. -/
structure Assignment where
  id : String
  ticket_id : String
  supporter_id : String
deriving DecidableEq, Repr

/-- One row of the `item_threads` table. -/
structure ThreadEdge where
  parent_item_id : String
  child_item_id : String
deriving DecidableEq, Repr

/-- The relational store (one consistent snapshot of all tables). -/
structure Store where
  items : List Item
  tickets : List Ticket
  queues : List Queue
  supporters : List Supporter
  assignments : List Assignment
  threads : List ThreadEdge
deriving DecidableEq, Repr

/-- Connection-level database state: the committed snapshot, the working
snapshot of the open transaction (if any), plus the non-transactional
`ticket_number_seq` sequence and the uuid counter. -/
structure DbState where
  committed : Store
  txn : Option Store
  seq : Nat
  uuidCtr : Nat
deriving DecidableEq, Repr

/-- The snapshot a query sees: the open transaction's snapshot, or the
committed one. -/
def DbState.view (s : DbState) : Store := s.txn.getD s.committed

/-- Models `cur.execute("BEGIN")`: inside an open transaction Postgres
only issues a warning, so this is a no-op there. -/
def beginTx (s : DbState) : DbState :=
  if s.txn.isSome then s else { s with txn := some s.committed }

/-- Models `cur.execute("COMMIT")`: publishes the working snapshot
(a no-op when no transaction is open). -/
def commitTx (s : DbState) : DbState :=
  { s with committed := s.view, txn := none }

/-- Models `cur.execute("ROLLBACK")`: discards the working snapshot. -/
def rollbackTx (s : DbState) : DbState := { s with txn := none }

/-- A write executed on the connection: applied to the working snapshot,
implicitly opening a transaction if none is open (psycopg2 semantics). -/
def writeView (s : DbState) (f : Store → Store) : DbState :=
  { s with txn := some (f s.view) }

/-- Models `uuid.uuid4()`: returns a fresh identifier and bumps the
(non-transactional) counter. -/
def genUuid (s : DbState) : String × DbState :=
  (uuidStr s.uuidCtr, { s with uuidCtr := s.uuidCtr + 1 })

/-- Characters removed by Python's `.strip('<>')`. -/
def isAngle (c : Char) : Bool := c == '<' || c == '>'

/-- Python's `str.strip('<>')` on a character list: remove leading and
trailing `<`/`>` characters. -/
def stripChars (l : List Char) : List Char :=
  ((l.dropWhile isAngle).reverse.dropWhile isAngle).reverse

/-- Python's `str.strip('<>')`. -/
def stripAngle (s : String) : String := String.mk (stripChars s.data)

/-- Worker for `splitWs`: `cur` holds the characters of the word being
read, in reverse. -/
def splitWsAux : List Char → List Char → List String
  | [], cur => if cur.isEmpty then [] else [String.mk cur.reverse]
  | c :: rest, cur =>
    if c.isWhitespace then
      (if cur.isEmpty then [] else [String.mk cur.reverse]) ++ splitWsAux rest []
    else splitWsAux rest (c :: cur)

/-- Python's no-argument `str.split()`: split on runs of whitespace,
dropping empty fragments. -/
def splitWs (s : String) : List String := splitWsAux s.data []

/-- One MIME part of a multipart message, as seen by
`email.message.walk()` (the container itself, whose content type is
`multipart/...`, is omitted since the scan skips it). -/
structure Part where
  content_type : String
  payload : String
deriving DecidableEq, Repr

/-- The payload of an email message: a single decoded body, or the
walk-ordered list of parts of a multipart message. -/
inductive Payload where
  | single : String → Payload
  | multi : List Part → Payload
deriving DecidableEq, Repr

/-- A raw inbound email message, with headers exactly as received
(message ids still wrapped in angle brackets, references a single
space-separated header value). `fromAddr`/`toAddr` hold the address part
already, modelling `parseaddr(...)[1]`. -/
structure EmailMessage where
  message_id : String
  subject : String
  fromAddr : String
  toAddr : String
  in_reply_to : String
  references : String
  payload : Payload
deriving DecidableEq, Repr

/-- `_get_email_body`: for a multipart message, the decoded payload of
the first `text/plain` part in walk order, or the empty string if none
exists; for a non-multipart message, the single decoded payload
(decoding is modelled as the identity on the stored payload string). -/
def get_email_body (m : EmailMessage) : String :=
  match m.payload with
  | .multi parts =>
    match parts.find? (fun p => p.content_type == "text/plain") with
    | some p => p.payload
    | none => ""
  | .single s => s

/-- Matches the regex tail `[A-Z]` of `_extract_ticket_reference`. -/
def isUpper (c : Char) : Bool := 'A' ≤ c && c ≤ 'Z'

/-- Attempt of the regex `[A-Z]+-\d+` at the head of a character list
(the part of the pattern after `#`); returns the captured group. -/
def matchTagFrom (l : List Char) : Option String :=
  let ups := l.takeWhile isUpper
  if ups.isEmpty then none
  else
    match l.drop ups.length with
    | '-' :: r2 =>
      let ds := r2.takeWhile Char.isDigit
      if ds.isEmpty then none
      else some (String.mk (ups ++ '-' :: ds))
    | _ => none

/-- `re.search` for the pattern `#([A-Z]+-\d+)`: scan start positions
left to right; at a `#`, try the tail pattern, otherwise keep scanning. -/
def searchTag : List Char → Option String
  | [] => none
  | '#' :: r =>
    match matchTagFrom r with
    | some t => some t
    | none => searchTag r
  | _ :: r => searchTag r

/-- `_extract_ticket_reference`: extract a `#<UPPERCASE>-<digits>` ticket
tag from a subject line.  NOTE: this helper is defined in the source but
never invoked by `_process_single_email`. -/
def extract_ticket_reference (subject : String) : Option String :=
  searchTag subject.data

/-- Models the query in `_process_single_email`:
`SELECT ticket_id FROM items WHERE message_id = ANY(%s) AND type = 'email' LIMIT 1`.
The query has no ORDER BY, so `LIMIT 1` returns an arbitrary matching
row; rows are modelled in insertion order, so the first stored match is
returned. -/
def thread_lookup (st : Store) (message_refs : List String) : Option String :=
  (st.items.find? (fun it =>
    message_refs.contains it.message_id && it.itemType == "email")).map
    (fun it => it.ticket_id)

/-- The fixed default queue id used by `_create_new_ticket`. -/
def default_queue_id : String := "11111111-1111-1111-1111-111111111111"

/-- Python's `f"{n:06d}"`: decimal digits, zero-padded on the left to a
minimum width of six. -/
def pad6 (n : Nat) : String :=
  let s := toString n
  String.mk (List.replicate (6 - s.length) '0') ++ s

/-- The ticket row inserted by `_create_new_ticket`. -/
def mkTicket (ticket_id tnum subject queue_id : String) (now : Nat) : Ticket :=
  { id := ticket_id, ticket_number := tnum, subject := subject,
    queue_id := queue_id, status_name := "New",
    assigned_supporter_id := none, created_at := now, updated_at := now }

/-- `_create_new_ticket`: draw the next value of the global
`ticket_number_seq` sequence, resolve (or lazily create) the default
queue, and insert a ticket numbered `SUP-<zero-padded sequence value>`
with status `New` and no assignee.  Returns the new state, the ticket id
and the formatted ticket number. -/
def create_new_ticket (s : DbState) (subject from_addr : String) (now : Nat) :
    DbState × String × String :=
  let (ticket_id, s) := genUuid s
  let s : DbState := { s with seq := s.seq + 1 }
  let ticket_number := s.seq
  let (queue_id, s) :=
    match s.view.queues.find?
        (fun q => q.id == default_queue_id || q.name == "Default Queue") with
    | some q => (q.id, s)
    | none =>
      (default_queue_id,
        writeView s (fun st =>
          if st.queues.any (fun q => q.id == default_queue_id) then st
          else { st with queues := st.queues ++
            [{ id := default_queue_id, name := "Default Queue", pfx := "SUP",
               description := "Default Support Queue" }] }))
  let tnum := "SUP-" ++ pad6 ticket_number
  let s := writeView s (fun st =>
    { st with tickets := st.tickets ++ [mkTicket ticket_id tnum subject queue_id now] })
  (s, ticket_id, tnum)

/-- Open-ticket count of one supporter, as computed by the ORDER BY
subquery of `_assign_supporter`. -/
def openCount (st : Store) (sid : String) : Nat :=
  (st.tickets.filter (fun t =>
    t.assigned_supporter_id == some sid && t.status_name != "Closed")).length

/-- The `ORDER BY (count of non-Closed assigned tickets) LIMIT 1` pick of
`_assign_supporter`: a supporter with the fewest open tickets (first one
in table order among ties). -/
def pickLeastLoaded (st : Store) : Option Supporter :=
  st.supporters.foldl (fun acc sup =>
    match acc with
    | none => some sup
    | some b => if openCount st sup.id < openCount st b.id then some sup else acc)
    none

/-- `_assign_supporter`: assign the least-loaded supporter to the ticket
and append an assignment-log row.  NOTE: this method is defined in the
source but never invoked by `_create_new_ticket` or
`_process_single_email`. -/
def assign_supporter (s : DbState) (ticket_id : String) : DbState :=
  match pickLeastLoaded s.view with
  | none => s
  | some sup =>
    let s := writeView s (fun st =>
      { st with tickets := st.tickets.map (fun t =>
          if t.id == ticket_id then { t with assigned_supporter_id := some sup.id }
          else t) })
    let (aid, s) := genUuid s
    writeView s (fun st =>
      { st with assignments := st.assignments ++ [⟨aid, ticket_id, sup.id⟩] })

/-- The item row inserted by `_store_email_in_db` for an inbound email
(the non-MIME branch, the only one reached from
`_process_single_email`). -/
def mkInboundItem (m : EmailMessage) (email_id ticket_id body : String)
    (references : List String) (now : Nat) : Item :=
  { id := email_id, ticket_id := ticket_id, itemType := "email",
    message_id := stripAngle m.message_id, from_address := m.fromAddr,
    to_address := m.toAddr, subject := m.subject, body := body,
    in_reply_to := stripAngle m.in_reply_to,
    references_list :=
      if references.isEmpty then none else some (references.map stripAngle),
    created_at := now, source := "customer" }

/-- `_store_email_in_db` on the original inbound message: insert one
`email` item with source `customer` (the unused `original_email`
parameter of the source is dropped). -/
def store_email_in_db (s : DbState) (m : EmailMessage) (ticket_id body : String)
    (references : List String) (now : Nat) : DbState × String :=
  let (email_id, s) := genUuid s
  let s := writeView s (fun st =>
    { st with items := st.items ++ [mkInboundItem m email_id ticket_id body references now] })
  (s, email_id)

/-- Models the query in `_create_confirmation_email`:
`SELECT ... FROM items WHERE message_id = %s AND type = 'email' ORDER BY created_at ASC LIMIT 1`
(ties on `created_at` resolved by insertion order). -/
def find_original_email (st : Store) (mid : String) : Option Item :=
  (st.items.filter (fun it => it.message_id == mid && it.itemType == "email")).foldl
    (fun acc it =>
      match acc with
      | none => some it
      | some b => if it.created_at < b.created_at then some it else acc)
    none

/-- The outgoing confirmation message built by
`_create_confirmation_email` (headers as strings, the References header
kept as the list of bare message ids it is joined from; an empty string
or list models an absent header). -/
structure ConfMsg where
  fromH : String
  toH : String
  subjectH : String
  messageIdH : String
  inReplyToH : String
  referencesL : List String
  bodyH : String
deriving DecidableEq, Repr

/-- The raw Message-ID header minted for the n-th generated uuid:
`f"<{uuid4()}@{smtp_host}>"`. -/
def mkConfRawMid (n : Nat) : String :=
  "<" ++ uuidStr n ++ "@" ++ smtp_host ++ ">"

/-- The external template renderer (an excluded collaborator), modelled
as a deterministic text builder for the `ticket-confirmation`
template. -/
def render_confirmation (ticket_number ticket_id body : String) : String :=
  "[ticket-confirmation] " ++ ticket_number ++ " " ++ ticket_id ++ " " ++ body

/-- `_create_confirmation_email`: look the originating item up by
message id, build the outgoing headers (In-Reply-To from the originating
item's message id; References from its stored references, then its
in-reply-to, then its message id appended last), render the body, and
return the message, the originating item and the reference list. -/
def create_confirmation_email (s : DbState)
    (to_address ticket_number subject body ticket_id original_message_id : String) :
    DbState × ConfMsg × Option Item × List String :=
  let original := find_original_email s.view original_message_id
  let (u, s) := genUuid s
  let midRaw := "<" ++ u ++ "@" ++ smtp_host ++ ">"
  let (inReplyToH, references) :=
    match original with
    | some o =>
      if o.message_id ≠ "" then
        ("<" ++ o.message_id ++ ">",
          (match o.references_list with | some rs => rs | none => []) ++
            (if o.in_reply_to ≠ "" then [o.in_reply_to] else []) ++ [o.message_id])
      else ("", [])
    | none => ("", [])
  let body2 := render_confirmation ticket_number ticket_id body
  let msg : ConfMsg :=
    { fromH := sender_name ++ " <" ++ sender_address ++ ">",
      toH := to_address,
      subjectH := "[" ++ ticket_number ++ "] - " ++ subject,
      messageIdH := midRaw,
      inReplyToH := inReplyToH,
      referencesL := references,
      bodyH := body2 }
  (s, msg, original, references)

/-- The item row inserted for the sent confirmation email (source
`supporter`). -/
def mkConfItem (msg : ConfMsg) (item_id ticket_id : String)
    (references : List String) (now : Nat) : Item :=
  { id := item_id, ticket_id := ticket_id, itemType := "email",
    message_id := stripAngle msg.messageIdH, from_address := msg.fromH,
    to_address := msg.toH, subject := msg.subjectH, body := msg.bodyH,
    in_reply_to := stripAngle msg.inReplyToH,
    references_list := if references.isEmpty then none else some references,
    created_at := now, source := "supporter" }

/-- `_send_confirmation_email`: build the confirmation, store it as a
`supporter` email item, record the thread edge from the originating item
when one was found, then perform the external send.  The `BEGIN` here is
a no-op inside the transaction already opened by
`_process_single_email`, so `COMMIT`/`ROLLBACK` act on that whole
transaction.  Returns the new state, the list of send attempts handed to
`_send_email`, and the outcome. -/
def send_confirmation_email (s : DbState)
    (to_address ticket_number subject ticket_id body original_message_id : String)
    (sendOk : Bool) (now : Nat) : DbState × List ConfMsg × Except String Unit :=
  let (s, msg, original, references) :=
    create_confirmation_email s to_address ticket_number subject body ticket_id
      original_message_id
  let s := beginTx s
  let (item_id, s) := genUuid s
  let s := writeView s (fun st =>
    { st with items := st.items ++ [mkConfItem msg item_id ticket_id references now] })
  let s :=
    match original with
    | some o =>
      if o.message_id ≠ "" then
        match s.view.items.find?
            (fun it => it.message_id == o.message_id && it.itemType == "email") with
        | some parent =>
          writeView s (fun st =>
            { st with threads := st.threads ++ [⟨parent.id, item_id⟩] })
        | none => s
      else s
    | none => s
  if sendOk then (commitTx s, [msg], .ok ())
  else (rollbackTx s, [msg], .error "send failed")

/-- `_process_single_email`: idempotency check on the (stripped) message
id, thread resolution via the In-Reply-To/References headers, ticket
creation when unresolved, storage of the inbound item, and confirmation
dispatch when the message carries no threading headers.  Returns the new
state, the confirmation send attempts, and the outcome (`ok none` for an
already-processed message, `ok (some ticket_id)` on success, an error
when the confirmation send fails). -/
def process_single_email (s0 : DbState) (m : EmailMessage) (sendOk : Bool)
    (now : Nat) : DbState × List ConfMsg × Except String (Option String) :=
  let message_id := stripAngle m.message_id
  let s := beginTx s0
  if s.view.items.any (fun it =>
      it.message_id == message_id && it.itemType == "email") then
    (s, [], .ok none)
  else
    let subject := m.subject
    let from_addr := m.fromAddr
    let in_reply_to := stripAngle m.in_reply_to
    let references := (splitWs m.references).map stripAngle
    let ticket_id? : Option String :=
      if in_reply_to ≠ "" ∨ references ≠ [] then
        let message_refs := ([in_reply_to] ++ references).filter (fun r => r ≠ "")
        if message_refs = [] then none
        else thread_lookup s.view message_refs
      else none
    let (s, ticket_id, ticket_number) :=
      match ticket_id? with
      | some tid =>
        if tid = "" then create_new_ticket s subject from_addr now
        else (s, tid, "")
      | none => create_new_ticket s subject from_addr now
    let email_body := get_email_body m
    let (s, _item_id) := store_email_in_db s m ticket_id email_body references now
    if in_reply_to = "" ∧ references = [] then
      match send_confirmation_email s from_addr ticket_number subject ticket_id
          email_body message_id sendOk now with
      | (s, sends, .ok _) => (commitTx s, sends, .ok (some ticket_id))
      | (s, sends, .error e) => (rollbackTx s, sends, .error e)
    else
      (commitTx s, [], .ok (some ticket_id))

/-- A fetched raw message: either one whose parse raises, or a
well-formed message. -/
inductive RawMessage where
  | malformed : RawMessage
  | wellFormed : EmailMessage → RawMessage
deriving DecidableEq, Repr

/-- `email.message_from_bytes` on one fetched message. -/
def parse_message : RawMessage → Except String EmailMessage
  | .malformed => .error "parse error"
  | .wellFormed m => .ok m

/-- The per-batch loop of `process_emails`: each message is parsed and
processed inside a try/except whose handler logs and continues, so every
message of the batch is attempted and its outcome recorded. -/
def process_emails (s : DbState) (msgs : List RawMessage) (sendOk : Bool)
    (now : Nat) : DbState × List (Except String (Option String)) :=
  match msgs with
  | [] => (s, [])
  | msg :: rest =>
    let (s1, out) :=
      match parse_message msg with
      | .error e => (s, .error e)
      | .ok m =>
        match process_single_email s m sendOk now with
        | (s', _, r) => (s', r)
    let (s2, outs) := process_emails s1 rest sendOk now
    (s2, out :: outs)

/-- The incoming message carries no threading headers (empty In-Reply-To
after stripping and an empty References list): exactly the condition the
source uses both to skip thread resolution and to trigger the
confirmation email. -/
def noThreadHeaders (m : EmailMessage) : Prop :=
  stripAngle m.in_reply_to = "" ∧ (splitWs m.references).map stripAngle = []

instance (m : EmailMessage) : Decidable (noThreadHeaders m) := by
  unfold noThreadHeaders; infer_instance

/-- The identifying key of an item for idempotency purposes: its message
id and its type. -/
def itemKey (it : Item) : String × String := (it.message_id, it.itemType)

/-- Number of stored `email` items carrying a given message id. -/
def countEmail (st : Store) (mid : String) : Nat :=
  st.items.countP (fun it => it.message_id == mid && it.itemType == "email")

instance : DecidableEq (Except String (Option String)) := fun x y => by
  cases x <;> cases y
  case ok.ok a b =>
    exact if h : a = b then isTrue (by rw [h]) else isFalse (by intro hc; cases hc; exact h rfl)
  case error.error a b =>
    exact if h : a = b then isTrue (by rw [h]) else isFalse (by intro hc; cases hc; exact h rfl)
  all_goals exact isFalse (by intro hc; cases hc)

/-- An empty store (no rows in any table). -/
def emptyStore : Store := ⟨[], [], [], [], [], []⟩

/-- A fresh connection over an empty store. -/
def st0 : DbState := ⟨emptyStore, none, 0, 0⟩

/-- A fresh inbound message with no threading headers. -/
def msg_fresh : EmailMessage :=
  { message_id := "<a@x>", subject := "Printer broken", fromAddr := "user@x",
    toAddr := "support@example.com", in_reply_to := "", references := "",
    payload := .single "hello" }

/-- An inbound message whose In-Reply-To references a message id that no
stored item carries. -/
def msg_reply_unmatched : EmailMessage :=
  { message_id := "<c@y>", subject := "Problem again", fromAddr := "user@x",
    toAddr := "support@example.com", in_reply_to := "<zzz@x>", references := "",
    payload := .single "again" }

/-- Stored item that carries message id r1 (an older reference-only match). -/
def item_ref1 : Item :=
  { id := "i1", ticket_id := "t1", itemType := "email", message_id := "r1",
    from_address := "alice@x", to_address := "support@example.com",
    subject := "s1", body := "b1", in_reply_to := "", references_list := none,
    created_at := 0, source := "customer" }

/-- Stored item that carries message id r2 (newer, and the exact
In-Reply-To target of `msg_threaded`). -/
def item_ref2 : Item :=
  { id := "i2", ticket_id := "t2", itemType := "email", message_id := "r2",
    from_address := "bob@x", to_address := "support@example.com",
    subject := "s2", body := "b2", in_reply_to := "", references_list := none,
    created_at := 5, source := "customer" }

/-- A store holding the two reference items, `item_ref1` first. -/
def st_two_items : DbState := ⟨⟨[item_ref1, item_ref2], [], [], [], [], []⟩, none, 0, 0⟩

/-- A reply whose In-Reply-To is r2 and whose References header is r1:
both stored items match its candidate reference set. -/
def msg_threaded : EmailMessage :=
  { message_id := "<c@x>", subject := "Re: help", fromAddr := "alice@x",
    toAddr := "support@example.com", in_reply_to := "<r2>", references := "<r1>",
    payload := .single "body" }

/-- The default queue row. -/
def queue_default : Queue :=
  { id := default_queue_id, name := "Default Queue", pfx := "SUP",
    description := "Default Support Queue" }

/-- A queue named like the default queue but with a different prefix. -/
def queue_help : Queue :=
  { id := "q2", name := "Default Queue", pfx := "HELP", description := "Help queue" }

/-- A pre-existing ticket whose number is exactly SUP-7. -/
def ticket7 : Ticket :=
  { id := "t7", ticket_number := "SUP-7", subject := "Old issue",
    queue_id := default_queue_id, status_name := "New",
    assigned_supporter_id := none, created_at := 0, updated_at := 0 }

/-- A store holding ticket SUP-7 and the default queue, and no items. -/
def st_sup7 : DbState := ⟨⟨[], [ticket7], [queue_default], [], [], []⟩, none, 0, 0⟩

/-- A headerless message whose subject carries the ticket tag of SUP-7. -/
def msg_tagged : EmailMessage :=
  { message_id := "<b@x>", subject := "Re: #SUP-7", fromAddr := "user@x",
    toAddr := "support@example.com", in_reply_to := "", references := "",
    payload := .single "more info" }

/-- A store with exactly one supporter and the default queue. -/
def st_supporter : DbState :=
  ⟨⟨[], [], [queue_default], [⟨"s1", "s1@x"⟩], [], []⟩, none, 0, 0⟩

/-- A text/html part. -/
def part_html : Part := ⟨"text/html", "html body"⟩

/-- A text/plain part. -/
def part_plain : Part := ⟨"text/plain", "hello plain"⟩

/-- A multipart message with an html part before the plain part. -/
def msg_multi : EmailMessage :=
  { message_id := "<m1@x>", subject := "s", fromAddr := "a@x", toAddr := "b@x",
    in_reply_to := "", references := "", payload := .multi [part_html, part_plain] }

/-- A multipart message with no text/plain part. -/
def msg_html_only : EmailMessage :=
  { message_id := "<m2@x>", subject := "s", fromAddr := "a@x", toAddr := "b@x",
    in_reply_to := "", references := "", payload := .multi [part_html] }

/-- A stored originating item with a message id, an in-reply-to and one
stored reference. -/
def item_orig : Item :=
  { id := "i0", ticket_id := "t0", itemType := "email", message_id := "a@x",
    from_address := "u@x", to_address := "support@example.com", subject := "s",
    body := "b", in_reply_to := "prev@x", references_list := some ["root@x"],
    created_at := 0, source := "customer" }

/-- A store holding only the originating item. -/
def st_orig : DbState := ⟨⟨[item_orig], [], [], [], [], []⟩, none, 0, 0⟩

/-- A state whose sequence stands at 41 and whose queue table holds the
default queue with prefix SUP. -/
def st_seq41_sup : DbState := ⟨⟨[], [], [queue_default], [], [], []⟩, none, 41, 0⟩

/-- A state whose sequence also stands at 41 but whose queue table holds a
queue with prefix HELP. -/
def st_seq41_help : DbState := ⟨⟨[], [], [queue_help], [], [], []⟩, none, 41, 7⟩

theorem send_confirmation_ok_shape (s : DbState)
    (toA tn subj tid body omid : String) (now : Nat) (hsome : s.txn.isSome = true) :
    (send_confirmation_email s toA tn subj tid body omid true now).1.committed.items.map itemKey
      = s.view.items.map itemKey ++ [(stripAngle (mkConfRawMid s.uuidCtr), "email")] ∧
    (send_confirmation_email s toA tn subj tid body omid true now).1.committed.tickets
      = s.view.tickets ∧
    (send_confirmation_email s toA tn subj tid body omid true now).1.txn = none ∧
    (send_confirmation_email s toA tn subj tid body omid true now).2.1.length = 1 ∧
    (send_confirmation_email s toA tn subj tid body omid true now).2.2 = .ok () := by
  simp only [send_confirmation_email, create_confirmation_email, genUuid, beginTx,
    writeView, commitTx, DbState.view, hsome, if_true]
  split <;> (try split) <;> (try split) <;>
    simp [itemKey, mkConfItem, stripAngle, mkConfRawMid]

theorem send_confirmation_fail_shape (s : DbState)
    (toA tn subj tid body omid : String) (now : Nat) (hsome : s.txn.isSome = true) :
    (send_confirmation_email s toA tn subj tid body omid false now).1.committed = s.committed ∧
    (send_confirmation_email s toA tn subj tid body omid false now).1.txn = none ∧
    (send_confirmation_email s toA tn subj tid body omid false now).2.1.length = 1 ∧
    (send_confirmation_email s toA tn subj tid body omid false now).2.2 = .error "send failed" := by
  simp only [send_confirmation_email, create_confirmation_email, genUuid, beginTx,
    writeView, rollbackTx, DbState.view, hsome, if_true, Bool.false_eq_true, if_false]
  split <;> (try split) <;> (try split) <;> (try split) <;> simp

theorem beginTx_none {s : DbState} (h : s.txn = none) :
    beginTx s = { s with txn := some s.committed } := by
  unfold beginTx; rw [h]; rfl

theorem create_new_ticket_shape (s : DbState) (subject from_addr : String) (now : Nat) :
    ∃ t : Ticket,
      (create_new_ticket s subject from_addr now).1.committed = s.committed ∧
      (create_new_ticket s subject from_addr now).1.view.items = s.view.items ∧
      (create_new_ticket s subject from_addr now).1.view.tickets = s.view.tickets ++ [t] ∧
      (create_new_ticket s subject from_addr now).1.uuidCtr = s.uuidCtr + 1 ∧
      (create_new_ticket s subject from_addr now).1.txn.isSome = true ∧
      t.assigned_supporter_id = none ∧
      (create_new_ticket s subject from_addr now).2.2 = "SUP-" ++ pad6 (s.seq + 1) ∧
      t.ticket_number = "SUP-" ++ pad6 (s.seq + 1) := by
  simp only [create_new_ticket, genUuid, writeView, DbState.view]
  split
  · simp [mkTicket]
  · split <;> simp [mkTicket]

theorem dup_noop (s : DbState) (m : EmailMessage) (sendOk : Bool) (now : Nat)
    (htxn : s.txn = none)
    (h : ∃ it ∈ s.committed.items,
      it.message_id = stripAngle m.message_id ∧ it.itemType = "email") :
    process_single_email s m sendOk now = ({ s with txn := some s.committed }, [], .ok none) := by
  obtain ⟨it, hmem, h1, h2⟩ := h
  have hany : (s.committed.items.any (fun it =>
      it.message_id == stripAngle m.message_id && it.itemType == "email")) = true := by
    rw [List.any_eq_true]
    exact ⟨it, hmem, by simp [h1, h2]⟩
  unfold process_single_email
  rw [beginTx_none htxn]
  simp [DbState.view, hany]

theorem process_noheaders_ok (s0 : DbState) (m : EmailMessage) (now : Nat)
    (htxn : s0.txn = none)
    (hdup : ∀ it ∈ s0.committed.items,
      ¬(it.message_id = stripAngle m.message_id ∧ it.itemType = "email"))
    (hnh : noThreadHeaders m) :
    (process_single_email s0 m true now).1.txn = none ∧
    (process_single_email s0 m true now).1.committed.items.map itemKey
      = s0.committed.items.map itemKey ++
        [(stripAngle m.message_id, "email"),
         (stripAngle (mkConfRawMid (s0.uuidCtr + 2)), "email")] ∧
    (process_single_email s0 m true now).1.committed.tickets.length
      = s0.committed.tickets.length + 1 ∧
    (process_single_email s0 m true now).2.1.length = 1 ∧
    (∃ tid, (process_single_email s0 m true now).2.2 = .ok (some tid)) := by
  obtain ⟨hIR, hrefs⟩ := hnh
  have hany : (s0.committed.items.any (fun it =>
      it.message_id == stripAngle m.message_id && it.itemType == "email")) = false := by
    rw [List.any_eq_false]
    intro it hmem
    have := hdup it hmem
    simp only [Bool.and_eq_true, beq_iff_eq]
    exact fun hc => this ⟨hc.1, hc.2⟩
  unfold process_single_email
  rw [beginTx_none htxn]
  simp only [DbState.view, Option.getD, hIR, hrefs, hany, Bool.false_eq_true, if_false,
    ne_eq, not_true_eq_false, false_or, or_self, if_true, List.map_nil, and_self]
  set s1 : DbState :=
    { committed := s0.committed, txn := some s0.committed, seq := s0.seq, uuidCtr := s0.uuidCtr }
    with hs1
  set ct := create_new_ticket s1 m.subject m.fromAddr now with hct
  obtain ⟨t, hc1, hc2, hc3, hc4, hc5, hc6, hc7, hc8⟩ := create_new_ticket_shape s1 m.subject m.fromAddr now
  rw [← hct] at hc1 hc2 hc3 hc4 hc5
  have hst : store_email_in_db ct.1 m ct.2.1 (get_email_body m) [] now =
      (writeView { ct.1 with uuidCtr := ct.1.uuidCtr + 1 } (fun st =>
        { st with items := st.items ++
          [mkInboundItem m (uuidStr ct.1.uuidCtr) ct.2.1 (get_email_body m) [] now] }),
       uuidStr ct.1.uuidCtr) := rfl
  rw [hst]
  set s3 := writeView { ct.1 with uuidCtr := ct.1.uuidCtr + 1 } (fun st =>
    { st with items := st.items ++
      [mkInboundItem m (uuidStr ct.1.uuidCtr) ct.2.1 (get_email_body m) [] now] }) with hs3
  have hsome3 : s3.txn.isSome = true := rfl
  obtain ⟨h1, h2, h3, h4, h5⟩ := send_confirmation_ok_shape s3 m.fromAddr ct.2.2 m.subject
    ct.2.1 (get_email_body m) (stripAngle m.message_id) now hsome3
  rcases hse : send_confirmation_email s3 m.fromAddr ct.2.2 m.subject ct.2.1
    (get_email_body m) (stripAngle m.message_id) true now with ⟨s4, sends, r⟩
  rw [hse] at h1 h2 h3 h4 h5
  have h5' : r = Except.ok () := h5
  have h4' : sends.length = 1 := h4
  have h3' : s4.txn = none := h3
  have h2' : s4.committed.tickets = s3.view.tickets := h2
  have h1' : List.map itemKey s4.committed.items =
      List.map itemKey s3.view.items ++ [(stripAngle (mkConfRawMid s3.uuidCtr), "email")] := h1
  subst h5'
  have hv4 : s4.view = s4.committed := by unfold DbState.view; rw [h3']; exact rfl
  refine ⟨rfl, ?_, ?_, h4', ⟨ct.2.1, rfl⟩⟩
  · show (s4.view.items).map itemKey = _
    rw [hv4, h1']
    have hv3 : s3.view.items = ct.1.view.items ++
        [mkInboundItem m (uuidStr ct.1.uuidCtr) ct.2.1 (get_email_body m) [] now] := rfl
    have hu3 : s3.uuidCtr = ct.1.uuidCtr + 1 := rfl
    have hv1 : s1.view.items = s0.committed.items := rfl
    have hu1 : s1.uuidCtr = s0.uuidCtr := rfl
    rw [hv3, hc2, hv1, hu3, hc4, hu1]
    simp [itemKey, mkInboundItem]
  · show (s4.view.tickets).length = _
    rw [hv4, h2']
    have hv3 : s3.view.tickets = ct.1.view.tickets := rfl
    have hv1 : s1.view.tickets = s0.committed.tickets := rfl
    rw [hv3, hc3, hv1]
    simp

theorem process_noheaders_fail (s0 : DbState) (m : EmailMessage) (now : Nat)
    (htxn : s0.txn = none)
    (hdup : ∀ it ∈ s0.committed.items,
      ¬(it.message_id = stripAngle m.message_id ∧ it.itemType = "email"))
    (hnh : noThreadHeaders m) :
    (process_single_email s0 m false now).1.committed = s0.committed ∧
    (process_single_email s0 m false now).2.2 = .error "send failed" ∧
    (process_single_email s0 m false now).2.1.length = 1 := by
  obtain ⟨hIR, hrefs⟩ := hnh
  have hany : (s0.committed.items.any (fun it =>
      it.message_id == stripAngle m.message_id && it.itemType == "email")) = false := by
    rw [List.any_eq_false]
    intro it hmem
    have := hdup it hmem
    simp only [Bool.and_eq_true, beq_iff_eq]
    exact fun hc => this ⟨hc.1, hc.2⟩
  unfold process_single_email
  rw [beginTx_none htxn]
  simp only [DbState.view, Option.getD, hIR, hrefs, hany, Bool.false_eq_true, if_false,
    ne_eq, not_true_eq_false, false_or, or_self, if_true, List.map_nil, and_self]
  set s1 : DbState :=
    { committed := s0.committed, txn := some s0.committed, seq := s0.seq, uuidCtr := s0.uuidCtr }
    with hs1
  set ct := create_new_ticket s1 m.subject m.fromAddr now with hct
  obtain ⟨t, hc1, hc2, hc3, hc4, hc5, hc6, hc7, hc8⟩ := create_new_ticket_shape s1 m.subject m.fromAddr now
  rw [← hct] at hc1 hc2 hc3 hc4 hc5
  have hst : store_email_in_db ct.1 m ct.2.1 (get_email_body m) [] now =
      (writeView { ct.1 with uuidCtr := ct.1.uuidCtr + 1 } (fun st =>
        { st with items := st.items ++
          [mkInboundItem m (uuidStr ct.1.uuidCtr) ct.2.1 (get_email_body m) [] now] }),
       uuidStr ct.1.uuidCtr) := rfl
  rw [hst]
  set s3 := writeView { ct.1 with uuidCtr := ct.1.uuidCtr + 1 } (fun st =>
    { st with items := st.items ++
      [mkInboundItem m (uuidStr ct.1.uuidCtr) ct.2.1 (get_email_body m) [] now] }) with hs3
  have hsome3 : s3.txn.isSome = true := rfl
  obtain ⟨h1, h2, h3, h4⟩ := send_confirmation_fail_shape s3 m.fromAddr ct.2.2 m.subject
    ct.2.1 (get_email_body m) (stripAngle m.message_id) now hsome3
  rcases hse : send_confirmation_email s3 m.fromAddr ct.2.2 m.subject ct.2.1
    (get_email_body m) (stripAngle m.message_id) false now with ⟨s4, sends, r⟩
  rw [hse] at h1 h2 h3 h4
  have h4' : r = Except.error "send failed" := h4
  have h3' : sends.length = 1 := h3
  have h1' : s4.committed = s3.committed := h1
  subst h4'
  have hcc : s3.committed = s0.committed := hc1
  exact ⟨by rw [show (rollbackTx s4).committed = s4.committed from rfl, h1', hcc], rfl, h3'⟩

theorem create_store_commit_shape (b : DbState) (m : EmailMessage)
    (refs : List String) (now : Nat) :
    (commitTx (store_email_in_db (create_new_ticket b m.subject m.fromAddr now).1 m
      (create_new_ticket b m.subject m.fromAddr now).2.1 (get_email_body m) refs now).1).txn
      = none ∧
    (commitTx (store_email_in_db (create_new_ticket b m.subject m.fromAddr now).1 m
      (create_new_ticket b m.subject m.fromAddr now).2.1 (get_email_body m) refs now).1).committed.items.map itemKey
      = b.view.items.map itemKey ++ [(stripAngle m.message_id, "email")] ∧
    (commitTx (store_email_in_db (create_new_ticket b m.subject m.fromAddr now).1 m
      (create_new_ticket b m.subject m.fromAddr now).2.1 (get_email_body m) refs now).1).committed.tickets.length
      = b.view.tickets.length + 1 := by
  set ct := create_new_ticket b m.subject m.fromAddr now with hct
  obtain ⟨t, hc1, hc2, hc3, hc4, hc5, hc6, hc7, hc8⟩ := create_new_ticket_shape b m.subject m.fromAddr now
  rw [← hct] at hc1 hc2 hc3 hc4 hc5
  have hst : store_email_in_db ct.1 m ct.2.1 (get_email_body m) refs now =
      (writeView { ct.1 with uuidCtr := ct.1.uuidCtr + 1 } (fun st =>
        { st with items := st.items ++
          [mkInboundItem m (uuidStr ct.1.uuidCtr) ct.2.1 (get_email_body m) refs now] }),
       uuidStr ct.1.uuidCtr) := rfl
  rw [hst]
  set s3 := writeView { ct.1 with uuidCtr := ct.1.uuidCtr + 1 } (fun st =>
    { st with items := st.items ++
      [mkInboundItem m (uuidStr ct.1.uuidCtr) ct.2.1 (get_email_body m) refs now] }) with hs3
  refine ⟨rfl, ?_, ?_⟩
  · show (s3.view.items).map itemKey = _
    have hv3 : s3.view.items = ct.1.view.items ++
        [mkInboundItem m (uuidStr ct.1.uuidCtr) ct.2.1 (get_email_body m) refs now] := rfl
    rw [hv3, hc2]
    simp [itemKey, mkInboundItem]
  · show (s3.view.tickets).length = _
    have hv3 : s3.view.tickets = ct.1.view.tickets := rfl
    rw [hv3, hc3]
    simp

theorem process_headers_ok (s0 : DbState) (m : EmailMessage) (sendOk : Bool) (now : Nat)
    (htxn : s0.txn = none)
    (hdup : ∀ it ∈ s0.committed.items,
      ¬(it.message_id = stripAngle m.message_id ∧ it.itemType = "email"))
    (hhdr : ¬ noThreadHeaders m) :
    (process_single_email s0 m sendOk now).1.txn = none ∧
    (process_single_email s0 m sendOk now).1.committed.items.map itemKey
      = s0.committed.items.map itemKey ++ [(stripAngle m.message_id, "email")] ∧
    (process_single_email s0 m sendOk now).1.committed.tickets.length
      ≤ s0.committed.tickets.length + 1 ∧
    (process_single_email s0 m sendOk now).2.1 = [] ∧
    (∃ tid, (process_single_email s0 m sendOk now).2.2 = .ok (some tid)) := by
  have hany : (s0.committed.items.any (fun it =>
      it.message_id == stripAngle m.message_id && it.itemType == "email")) = false := by
    rw [List.any_eq_false]
    intro it hmem
    have := hdup it hmem
    simp only [Bool.and_eq_true, beq_iff_eq]
    exact fun hc => this ⟨hc.1, hc.2⟩
  have hcond : stripAngle m.in_reply_to ≠ "" ∨ (splitWs m.references).map stripAngle ≠ [] := by
    unfold noThreadHeaders at hhdr
    exact not_and_or.mp hhdr
  unfold process_single_email
  rw [beginTx_none htxn]
  simp only [DbState.view, Option.getD, hany, Bool.false_eq_true, if_false]
  have hhdr' : ¬(stripAngle m.in_reply_to = "" ∧
      List.map stripAngle (splitWs m.references) = []) := hhdr
  rw [if_pos hcond, if_neg hhdr']
  split
  · -- thread lookup returned a row
    split
    · -- falsy (NULL/empty) ticket reference: a new ticket is created
      obtain ⟨g1, g2, g3⟩ := create_store_commit_shape
        { committed := s0.committed, txn := some s0.committed, seq := s0.seq, uuidCtr := s0.uuidCtr }
        m (List.map stripAngle (splitWs m.references)) now
      exact ⟨g1, g2, le_of_eq g3, rfl, ⟨_, rfl⟩⟩
    · -- an existing ticket is reused
      refine ⟨rfl, ?_, Nat.le_succ _, rfl, ⟨_, rfl⟩⟩
      show ((writeView _ _).view.items).map itemKey = _
      simp [writeView, DbState.view, itemKey, mkInboundItem]
  · -- no row matched: a new ticket is created
    obtain ⟨g1, g2, g3⟩ := create_store_commit_shape
      { committed := s0.committed, txn := some s0.committed, seq := s0.seq, uuidCtr := s0.uuidCtr }
      m (List.map stripAngle (splitWs m.references)) now
    exact ⟨g1, g2, le_of_eq g3, rfl, ⟨_, rfl⟩⟩

theorem find?_first {α : Type} (p : α → Bool) (pre post : List α) (x : α)
    (hpre : ∀ y ∈ pre, p y = false) (hx : p x = true) :
    (pre ++ x :: post).find? p = some x := by
  induction pre with
  | nil => simp [List.find?_cons, hx]
  | cons y ys ih =>
    rw [List.cons_append, List.find?_cons_of_neg _ (by simp [hpre y (by simp)])]
    exact ih (fun z hz => hpre z (by simp [hz]))

/-- Claim C1 (amended): for every inbound email that creates a new ticket
(no threading headers, not yet processed), if the external send of the
confirmation fails, the confirmation item is absent from the committed
store — but so are the newly created ticket and the inbound item: the
inner BEGIN of the confirmation step is a no-op inside the transaction
already opened by the processing step, so its ROLLBACK discards the
whole transaction, and the failure propagates. -/
theorem send_failure_full_rollback (s0 : DbState) (m : EmailMessage) (now : Nat)
    (htxn : s0.txn = none)
    (hdup : ∀ it ∈ s0.committed.items,
      ¬(it.message_id = stripAngle m.message_id ∧ it.itemType = "email"))
    (hnh : noThreadHeaders m) :
    (process_single_email s0 m false now).1.committed = s0.committed ∧
    (process_single_email s0 m false now).2.2 = .error "send failed" :=
  ⟨(process_noheaders_fail s0 m now htxn hdup hnh).1,
   (process_noheaders_fail s0 m now htxn hdup hnh).2.1⟩

/-- Claim C2: processing the same raw message twice in sequence leaves
exactly one committed `email` item carrying its message id; the second
processing finds the existing item in the idempotency check, commits
nothing, creates no ticket, dispatches nothing, and returns a no-op
success (`ok none`); at most one ticket is created overall. -/
theorem duplicate_message_idempotent (s0 : DbState) (m : EmailMessage) (now now2 : Nat)
    (htxn : s0.txn = none)
    (hdup : ∀ it ∈ s0.committed.items,
      ¬(it.message_id = stripAngle m.message_id ∧ it.itemType = "email"))
    (hconf : stripAngle (mkConfRawMid (s0.uuidCtr + 2)) ≠ stripAngle m.message_id) :
    countEmail (process_single_email (process_single_email s0 m true now).1 m true now2).1.committed
        (stripAngle m.message_id) = 1 ∧
    (process_single_email (process_single_email s0 m true now).1 m true now2).1.committed
      = (process_single_email s0 m true now).1.committed ∧
    (process_single_email (process_single_email s0 m true now).1 m true now2).2.2 = .ok none ∧
    (process_single_email (process_single_email s0 m true now).1 m true now2).2.1 = [] ∧
    (process_single_email s0 m true now).1.committed.tickets.length
      ≤ s0.committed.tickets.length + 1 := by
  have hcount : ∀ l : List Item, l.countP
        (fun it => it.message_id == stripAngle m.message_id && it.itemType == "email")
      = (l.map itemKey).countP
        (fun kv => kv.1 == stripAngle m.message_id && kv.2 == "email") := by
    intro l; rw [List.countP_map]; rfl
  have hz : (s0.committed.items.map itemKey).countP
      (fun kv => kv.1 == stripAngle m.message_id && kv.2 == "email") = 0 := by
    rw [← hcount, List.countP_eq_zero]
    intro a ha
    have := hdup a ha
    simp only [Bool.and_eq_true, beq_iff_eq]
    exact fun hc => this ⟨hc.1, hc.2⟩
  have hconfb : (stripAngle (mkConfRawMid (s0.uuidCtr + 2)) == stripAngle m.message_id) = false := by
    simp [hconf]
  by_cases hA : noThreadHeaders m
  · obtain ⟨ha1, ha2, ha3, ha4, ha5⟩ := process_noheaders_ok s0 m now htxn hdup hA
    have hkey : (stripAngle m.message_id, "email") ∈
        (process_single_email s0 m true now).1.committed.items.map itemKey := by
      rw [ha2]; simp
    obtain ⟨it, hmem, hitk⟩ := List.mem_map.mp hkey
    have hf1 : it.message_id = stripAngle m.message_id := congrArg Prod.fst hitk
    have hf2 : it.itemType = "email" := congrArg Prod.snd hitk
    have hdn := dup_noop (process_single_email s0 m true now).1 m true now2 ha1
      ⟨it, hmem, hf1, hf2⟩
    rw [hdn]
    refine ⟨?_, rfl, rfl, rfl, le_of_eq ha3⟩
    show countEmail (process_single_email s0 m true now).1.committed (stripAngle m.message_id) = 1
    unfold countEmail
    rw [hcount, ha2, List.countP_append, hz]
    simp [List.countP_cons, hconfb]
  · obtain ⟨ha1, ha2, ha3, ha4, ha5⟩ := process_headers_ok s0 m true now htxn hdup hA
    have hkey : (stripAngle m.message_id, "email") ∈
        (process_single_email s0 m true now).1.committed.items.map itemKey := by
      rw [ha2]; simp
    obtain ⟨it, hmem, hitk⟩ := List.mem_map.mp hkey
    have hf1 : it.message_id = stripAngle m.message_id := congrArg Prod.fst hitk
    have hf2 : it.itemType = "email" := congrArg Prod.snd hitk
    have hdn := dup_noop (process_single_email s0 m true now).1 m true now2 ha1
      ⟨it, hmem, hf1, hf2⟩
    rw [hdn]
    refine ⟨?_, rfl, rfl, rfl, ha3⟩
    show countEmail (process_single_email s0 m true now).1.committed (stripAngle m.message_id) = 1
    unfold countEmail
    rw [hcount, ha2, List.countP_append, hz]
    simp [List.countP_cons]

/-- Claim C3 (amended): for a not-yet-processed message, confirmation
dispatch occurs exactly once if and only if the message carries no
threading headers (empty In-Reply-To and References); a message with
threading headers never triggers dispatch, even when its references
match nothing and a brand-new ticket is created for it.  In the
headerless case exactly one new ticket is committed. -/
theorem confirmation_iff_no_thread_headers (s0 : DbState) (m : EmailMessage) (now : Nat)
    (htxn : s0.txn = none)
    (hdup : ∀ it ∈ s0.committed.items,
      ¬(it.message_id = stripAngle m.message_id ∧ it.itemType = "email")) :
    ((process_single_email s0 m true now).2.1.length = 1 ↔ noThreadHeaders m) ∧
    (¬ noThreadHeaders m → (process_single_email s0 m true now).2.1 = []) ∧
    (noThreadHeaders m → (process_single_email s0 m true now).1.committed.tickets.length
      = s0.committed.tickets.length + 1) := by
  by_cases hA : noThreadHeaders m
  · obtain ⟨ha1, ha2, ha3, ha4, ha5⟩ := process_noheaders_ok s0 m now htxn hdup hA
    exact ⟨⟨fun _ => hA, fun _ => ha4⟩, fun hc => absurd hA hc, fun _ => ha3⟩
  · obtain ⟨ha1, ha2, ha3, ha4, ha5⟩ := process_headers_ok s0 m true now htxn hdup hA
    refine ⟨⟨fun hl => ?_, fun hc => absurd hc hA⟩, fun _ => ha4, fun hc => absurd hc hA⟩
    rw [ha4] at hl
    exact absurd hl (by simp)

/-- Claim C4 (amended): when the candidate reference set matches more
than one stored `email` item, thread resolution returns the ticket of
the first matching item in insertion order — the query carries no ORDER
BY and no preference for an exact In-Reply-To match or for recency. -/
theorem thread_lookup_first_match (st : Store) (refs : List String)
    (pre post : List Item) (x : Item)
    (hst : st.items = pre ++ x :: post)
    (hpre : ∀ y ∈ pre, ¬(y.message_id ∈ refs ∧ y.itemType = "email"))
    (hx : x.message_id ∈ refs) (hxt : x.itemType = "email") :
    thread_lookup st refs = some x.ticket_id := by
  unfold thread_lookup
  rw [hst, find?_first]
  · rfl
  · intro y hy
    have := hpre y hy
    simp only [Bool.and_eq_false_iff]
    by_cases h1 : y.message_id ∈ refs
    · right
      simp only [beq_eq_false_iff_ne, ne_eq]
      exact fun h2 => this ⟨h1, h2⟩
    · left
      simp [List.elem_iff, h1]
  · simp [List.elem_iff, hx, hxt]

/-- Claim C7: body extraction returns the decoded payload of the first
text/plain part of a multipart message in part-scan order, the empty
string when a multipart message has no text/plain part, and the single
decoded payload of a non-multipart message. -/
theorem email_body_extraction :
    (∀ (m : EmailMessage) (pre post : List Part) (p : Part),
      m.payload = .multi (pre ++ p :: post) →
      (∀ q ∈ pre, q.content_type ≠ "text/plain") →
      p.content_type = "text/plain" →
      get_email_body m = p.payload) ∧
    (∀ (m : EmailMessage) (parts : List Part),
      m.payload = .multi parts →
      (∀ q ∈ parts, q.content_type ≠ "text/plain") →
      get_email_body m = "") ∧
    (∀ (m : EmailMessage) (b : String), m.payload = .single b → get_email_body m = b) := by
  refine ⟨?_, ?_, ?_⟩
  · intro m pre post p hp hpre hptype
    obtain ⟨mid, subj, fa, ta, irt, refs, pay⟩ := m
    subst hp
    show (match (pre ++ p :: post).find? (fun q => q.content_type == "text/plain") with
      | some q => q.payload | none => "") = p.payload
    rw [find?_first _ pre post p (fun y hy => by simp [hpre y hy]) (by simp [hptype])]
  · intro m parts hp hnone
    obtain ⟨mid, subj, fa, ta, irt, refs, pay⟩ := m
    subst hp
    show (match parts.find? (fun q => q.content_type == "text/plain") with
      | some q => q.payload | none => "") = ""
    rw [List.find?_eq_none.mpr (fun q hq => by simp [hnone q hq])]
  · intro m b hp
    obtain ⟨mid, subj, fa, ta, irt, refs, pay⟩ := m
    subst hp
    rfl

/-- Claim C8: the confirmation email's In-Reply-To header is built from
the originating item's message id, and its References list is built from
the originating item's stored references, then its in-reply-to, with its
message id appended last. -/
theorem confirmation_headers_from_original (s : DbState)
    (toA tn subj body tid omid : String) (o : Item)
    (hfind : find_original_email s.view omid = some o)
    (hmid : o.message_id ≠ "") :
    (create_confirmation_email s toA tn subj body tid omid).2.1.inReplyToH
      = "<" ++ o.message_id ++ ">" ∧
    (create_confirmation_email s toA tn subj body tid omid).2.2.2
      = (o.references_list.getD []) ++
        (if o.in_reply_to ≠ "" then [o.in_reply_to] else []) ++ [o.message_id] ∧
    (create_confirmation_email s toA tn subj body tid omid).2.2.2.getLast?
      = some o.message_id ∧
    (create_confirmation_email s toA tn subj body tid omid).2.1.referencesL
      = (create_confirmation_email s toA tn subj body tid omid).2.2.2 := by
  refine ⟨?_, ?_, ?_, ?_⟩
  · simp only [create_confirmation_email, genUuid, hfind]
    simp [hmid]
  · simp only [create_confirmation_email, genUuid, hfind]
    cases href : o.references_list <;> simp [hmid, Option.getD]
  · simp only [create_confirmation_email, genUuid, hfind]
    simp only [hmid, ne_eq, not_false_eq_true, if_true, ite_not]
    rw [List.getLast?_concat]
  · simp only [create_confirmation_email, genUuid, hfind]

/-- Claim C9: every message of a fetched batch is attempted and yields a
recorded outcome — a parse or processing failure of one message never
aborts the batch; in particular a malformed message at the head of the
batch leaves the processing of the rest unchanged. -/
theorem batch_isolation :
    (∀ (s : DbState) (msgs : List RawMessage) (sendOk : Bool) (now : Nat),
      (process_emails s msgs sendOk now).2.length = msgs.length) ∧
    (∀ (s : DbState) (rest : List RawMessage) (sendOk : Bool) (now : Nat),
      (process_emails s (.malformed :: rest) sendOk now).2
        = .error "parse error" :: (process_emails s rest sendOk now).2) := by
  constructor
  · intro s msgs sendOk now
    induction msgs generalizing s with
    | nil => rfl
    | cons msg rest ih =>
      cases msg <;> simp [process_emails, parse_message, ih]
  · intro s rest sendOk now
    rfl

/-- Claim C10: the ticket number minted by the allocator depends only on
the global sequence value — two allocations from states with equal
sequence values produce the same number, always of the form SUP- followed
by the zero-padded-to-six-digits next sequence value, regardless of the
queues present or their configured prefixes; every ticket present after
allocation is either pre-existing or carries that number. -/
theorem ticket_number_global_sequence (s1 s2 : DbState) (subj1 subj2 fa1 fa2 : String)
    (now1 now2 : Nat) (hseq : s1.seq = s2.seq) :
    (create_new_ticket s1 subj1 fa1 now1).2.2 = (create_new_ticket s2 subj2 fa2 now2).2.2 ∧
    (create_new_ticket s1 subj1 fa1 now1).2.2 = "SUP-" ++ pad6 (s1.seq + 1) ∧
    (∀ t ∈ (create_new_ticket s1 subj1 fa1 now1).1.view.tickets,
      t ∈ s1.view.tickets ∨ t.ticket_number = "SUP-" ++ pad6 (s1.seq + 1)) := by
  obtain ⟨t1, hc1, hc2, hc3, hc4, hc5, hc6, hc7, hc8⟩ :=
    create_new_ticket_shape s1 subj1 fa1 now1
  obtain ⟨t2, hd1, hd2, hd3, hd4, hd5, hd6, hd7, hd8⟩ :=
    create_new_ticket_shape s2 subj2 fa2 now2
  refine ⟨by rw [hc7, hd7, hseq], hc7, ?_⟩
  intro t ht
  rw [hc3] at ht
  rcases List.mem_append.mp ht with h | h
  · exact Or.inl h
  · right
    rw [List.mem_singleton.mp h, hc8]

/-- Claim C1, counterexample to the claim as stated: at a concrete fresh
message over an empty store, a failing confirmation send leaves the
committed store with NO ticket and NO inbound item (the claim asserts
ticket and inbound item remain committed). -/
theorem send_failure_rollback_cex :
    (process_single_email st0 msg_fresh false 0).1.committed.tickets = [] ∧
    (process_single_email st0 msg_fresh false 0).1.committed.items = [] ∧
    (process_single_email st0 msg_fresh false 0).2.2 = .error "send failed" := by
  decide

/-- Claim C1, witness: the amended rollback theorem applied at a concrete
input. -/
theorem send_failure_full_rollback_witness :
    (process_single_email st0 msg_fresh false 0).1.committed = st0.committed ∧
    (process_single_email st0 msg_fresh false 0).2.2 = .error "send failed" :=
  send_failure_full_rollback st0 msg_fresh 0 rfl (by decide) (by decide)

/-- Claim C2, witness: the idempotency theorem applied at a concrete
fresh message over an empty store. -/
theorem duplicate_message_idempotent_witness :
    countEmail (process_single_email (process_single_email st0 msg_fresh true 0).1
        msg_fresh true 1).1.committed (stripAngle msg_fresh.message_id) = 1 ∧
    (process_single_email (process_single_email st0 msg_fresh true 0).1
        msg_fresh true 1).1.committed
      = (process_single_email st0 msg_fresh true 0).1.committed ∧
    (process_single_email (process_single_email st0 msg_fresh true 0).1
        msg_fresh true 1).2.2 = .ok none ∧
    (process_single_email (process_single_email st0 msg_fresh true 0).1
        msg_fresh true 1).2.1 = [] ∧
    (process_single_email st0 msg_fresh true 0).1.committed.tickets.length
      ≤ st0.committed.tickets.length + 1 :=
  duplicate_message_idempotent st0 msg_fresh 0 1 rfl (by decide) (by decide)

/-- Claim C3, counterexample to the claim as stated: a message whose
In-Reply-To matches no stored item gets a brand-new ticket, yet no
confirmation is dispatched (the claim asserts dispatch occurs exactly
once whenever a brand-new ticket is created). -/
theorem confirmation_despite_new_ticket_cex :
    (process_single_email st0 msg_reply_unmatched true 0).1.committed.tickets.length = 1 ∧
    (process_single_email st0 msg_reply_unmatched true 0).2.1 = [] := by
  decide

/-- Claim C3, witness: the dispatch-condition theorem applied at a
concrete headerless message over an empty store. -/
theorem confirmation_iff_no_thread_headers_witness :
    ((process_single_email st0 msg_fresh true 0).2.1.length = 1 ↔ noThreadHeaders msg_fresh) ∧
    (¬ noThreadHeaders msg_fresh → (process_single_email st0 msg_fresh true 0).2.1 = []) ∧
    (noThreadHeaders msg_fresh →
      (process_single_email st0 msg_fresh true 0).1.committed.tickets.length
        = st0.committed.tickets.length + 1) :=
  confirmation_iff_no_thread_headers st0 msg_fresh 0 rfl (by decide)

/-- Claim C4, counterexample to the claim as stated: `item_ref2` is the
exact In-Reply-To target of the incoming reply and the most recently
created match, yet resolution returns `item_ref1`'s ticket t1, because
the query simply takes the first stored match. -/
theorem thread_lookup_no_tiebreak_cex :
    item_ref2.message_id = stripAngle msg_threaded.in_reply_to ∧
    item_ref1.created_at < item_ref2.created_at ∧
    (process_single_email st_two_items msg_threaded true 0).2.2 = .ok (some "t1") ∧
    item_ref2.ticket_id = "t2" ∧ ("t1" : String) ≠ "t2" := by
  decide

/-- Claim C4, witness: the first-match theorem applied at the concrete
two-item store. -/
theorem thread_lookup_first_match_witness :
    thread_lookup st_two_items.committed ["r2", "r1"] = some "t1" :=
  thread_lookup_first_match st_two_items.committed ["r2", "r1"] [] [item_ref2] item_ref1
    rfl (by simp) (by decide) rfl

/-- Claim C5: evaluation at the failing input.  The subject of
`msg_tagged` carries the tag #SUP-7, `_extract_ticket_reference` would
extract it, and a ticket numbered SUP-7 exists — yet processing creates
a second, new ticket instead of resolving to SUP-7, because the helper
is never invoked by `_process_single_email`. -/
theorem subject_tag_ignored :
    extract_ticket_reference msg_tagged.subject = some "SUP-7" ∧
    st_sup7.committed.tickets.map (fun t => t.ticket_number) = ["SUP-7"] ∧
    (process_single_email st_sup7 msg_tagged true 0).1.committed.tickets.length = 2 ∧
    (process_single_email st_sup7 msg_tagged true 0).2.2 = .ok (some "uuid-0") ∧
    ticket7.id = "t7" ∧ ("uuid-0" : String) ≠ "t7" := by
  decide

/-- Claim C6: evaluation at the failing input.  With one supporter
present, the allocator leaves the new ticket unassigned and inserts no
assignment-log row — `_assign_supporter` is never invoked; the final
conjunct shows that the defined-but-dead `_assign_supporter` would have
assigned the supporter had it been called. -/
theorem allocator_never_assigns :
    st_supporter.view.supporters.length = 1 ∧
    ((create_new_ticket st_supporter "Printer broken" "u@x" 0).1.view.tickets.map
      (fun t => t.assigned_supporter_id)) = [none] ∧
    (create_new_ticket st_supporter "Printer broken" "u@x" 0).1.view.assignments = [] ∧
    ((assign_supporter (create_new_ticket st_supporter "Printer broken" "u@x" 0).1
        (create_new_ticket st_supporter "Printer broken" "u@x" 0).2.1).view.tickets.map
      (fun t => t.assigned_supporter_id)) = [some "s1"] := by
  decide

/-- Claim C7, witness: body extraction evaluated through the theorem at
concrete multipart, html-only and single-part messages. -/
theorem email_body_extraction_witness :
    get_email_body msg_multi = "hello plain" ∧
    get_email_body msg_html_only = "" ∧
    get_email_body msg_fresh = "hello" :=
  ⟨email_body_extraction.1 msg_multi [part_html] [] part_plain rfl (by decide) rfl,
   email_body_extraction.2.1 msg_html_only [part_html] rfl (by decide),
   email_body_extraction.2.2 msg_fresh "hello" rfl⟩

/-- Claim C8, witness: the header-construction theorem applied at a
concrete originating item with a stored reference and an in-reply-to. -/
theorem confirmation_headers_from_original_witness :
    (create_confirmation_email st_orig "u@x" "SUP-000001" "s" "b" "t0" "a@x").2.1.inReplyToH
      = "<a@x>" ∧
    (create_confirmation_email st_orig "u@x" "SUP-000001" "s" "b" "t0" "a@x").2.2.2
      = ["root@x", "prev@x", "a@x"] ∧
    (create_confirmation_email st_orig "u@x" "SUP-000001" "s" "b" "t0" "a@x").2.2.2.getLast?
      = some "a@x" :=
  ⟨(confirmation_headers_from_original st_orig "u@x" "SUP-000001" "s" "b" "t0" "a@x"
      item_orig (by decide) (by decide)).1,
   (confirmation_headers_from_original st_orig "u@x" "SUP-000001" "s" "b" "t0" "a@x"
      item_orig (by decide) (by decide)).2.1,
   (confirmation_headers_from_original st_orig "u@x" "SUP-000001" "s" "b" "t0" "a@x"
      item_orig (by decide) (by decide)).2.2.1⟩

/-- Claim C10, witness: two allocations from states with equal sequence
value 41 but different queue prefixes (SUP vs HELP) mint the same ticket
number SUP-000042. -/
theorem ticket_number_global_sequence_witness :
    (create_new_ticket st_seq41_sup "a" "u@x" 0).2.2
      = (create_new_ticket st_seq41_help "b" "v@y" 9).2.2 ∧
    (create_new_ticket st_seq41_sup "a" "u@x" 0).2.2 = "SUP-000042" :=
  ⟨(ticket_number_global_sequence st_seq41_sup st_seq41_help "a" "b" "u@x" "v@y" 0 9 rfl).1,
   (ticket_number_global_sequence st_seq41_sup st_seq41_help "a" "b" "u@x" "v@y" 0 9 rfl).2.1⟩

end EmailProc
